import Mathlib

/-!
Shallow embedding of sngrep's RTP packet dissector,
`src/parser/packet_rtp.c`, together with theorems checking the
natural-language specification against it.

Buffers (GByteArray contents) are modelled as `List Nat`; each stored
octet is a `guint8`, so every read of an octet goes through `% 256`.
The companion header `packet_rtp.h` is not part of the provided sources;
the declarations it contributes (the `PacketRtpEncoding` and
`PacketRtpHdr` structures, the numeric `RTP_PT_*` payload-type codes and
`sizeof(PacketRtpHdr)`) are modelled from the spec, as marked below.
-/

/-- Modelled from the spec: the Encoding Descriptor structure
`PacketRtpEncoding` declared in the missing header `packet_rtp.h` —
"{numeric code, display name, short tag, clock rate}".  The two string
fields are nullable C pointers (`NULL` in the table's sentinel row and in
a zero-initialised dynamic descriptor), hence `Option String`. -/
structure PacketRtpEncoding where
  id : Nat
  name : Option String
  format : Option String
  clock : Nat
deriving DecidableEq

/-- Modelled from the spec: numeric values of the `RTP_PT_*` constants used
in the `encodings` table (declared in the missing header `packet_rtp.h`).
They are the well-known static RTP payload-type assignments the spec
describes: "code 0 = PCMU/8000, code 8 = PCMA/8000, etc. — a finite
enumerated table of well-known numeric codes", all below the 96-range
dynamic band. -/
def RTP_PT_PCMU : Nat := 0

def RTP_PT_GSM : Nat := 3

def RTP_PT_G723 : Nat := 4

def RTP_PT_DVI4_8000 : Nat := 5

def RTP_PT_DVI4_16000 : Nat := 6

def RTP_PT_LPC : Nat := 7

def RTP_PT_PCMA : Nat := 8

def RTP_PT_G722 : Nat := 9

def RTP_PT_L16_STEREO : Nat := 10

def RTP_PT_L16_MONO : Nat := 11

def RTP_PT_QCELP : Nat := 12

def RTP_PT_CN : Nat := 13

def RTP_PT_MPA : Nat := 14

def RTP_PT_G728 : Nat := 15

def RTP_PT_DVI4_11025 : Nat := 16

def RTP_PT_DVI4_22050 : Nat := 17

def RTP_PT_G729 : Nat := 18

def RTP_PT_CELB : Nat := 25

def RTP_PT_JPEG : Nat := 26

def RTP_PT_NV : Nat := 28

def RTP_PT_H261 : Nat := 31

def RTP_PT_MPV : Nat := 32

def RTP_PT_MP2T : Nat := 33

def RTP_PT_H263 : Nat := 34

/-- Known RTP encodings (`encodings[]`, packet_rtp.c lines 53-79),
including the `{ 0, NULL, NULL, 0 }` sentinel row that terminates the
lookup loop. -/
def encodings : List PacketRtpEncoding :=
  [ ⟨RTP_PT_PCMU, some "PCMU/8000", some "g711u", 8000⟩
  , ⟨RTP_PT_GSM, some "GSM/8000", some "gsm", 8000⟩
  , ⟨RTP_PT_G723, some "G723/8000", some "g723", 8000⟩
  , ⟨RTP_PT_DVI4_8000, some "DVI4/8000", some "dvi", 8000⟩
  , ⟨RTP_PT_DVI4_16000, some "DVI4/16000", some "dvi", 16000⟩
  , ⟨RTP_PT_LPC, some "LPC/8000", some "lpc", 8000⟩
  , ⟨RTP_PT_PCMA, some "PCMA/8000", some "g711a", 8000⟩
  , ⟨RTP_PT_G722, some "G722/8000", some "g722", 8000⟩
  , ⟨RTP_PT_L16_STEREO, some "L16/44100", some "l16", 44100⟩
  , ⟨RTP_PT_L16_MONO, some "L16/44100", some "l16", 44100⟩
  , ⟨RTP_PT_QCELP, some "QCELP/8000", some "qcelp", 8000⟩
  , ⟨RTP_PT_CN, some "CN/8000", some "cn", 8000⟩
  , ⟨RTP_PT_MPA, some "MPA/90000", some "mpa", 8000⟩
  , ⟨RTP_PT_G728, some "G728/8000", some "g728", 8000⟩
  , ⟨RTP_PT_DVI4_11025, some "DVI4/11025", some "dvi", 11025⟩
  , ⟨RTP_PT_DVI4_22050, some "DVI4/22050", some "dvi", 22050⟩
  , ⟨RTP_PT_G729, some "G729/8000", some "g729", 8000⟩
  , ⟨RTP_PT_CELB, some "CelB/90000", some "celb", 90000⟩
  , ⟨RTP_PT_JPEG, some "JPEG/90000", some "jpeg", 90000⟩
  , ⟨RTP_PT_NV, some "nv/90000", some "nv", 90000⟩
  , ⟨RTP_PT_H261, some "H261/90000", some "h261", 90000⟩
  , ⟨RTP_PT_MPV, some "MPV/90000", some "mpv", 90000⟩
  , ⟨RTP_PT_MP2T, some "MP2T/90000", some "mp2t", 90000⟩
  , ⟨RTP_PT_H263, some "H263/90000", some "h263", 90000⟩
  , ⟨0, none, none, 0⟩ ]

/-- The search loop of `packet_rtp_standard_codec` (lines 97-100):
`for (guint i = 0; encodings[i].format; i++) if (encodings[i].id == code)
return &encodings[i];` — walk the table until the sentinel's NULL
`format`, returning the first entry whose `id` matches. -/
def codecSearch : List PacketRtpEncoding → Nat → Option PacketRtpEncoding
  | [], _ => none
  | e :: rest, code =>
    if e.format.isSome then
      if e.id = code then some e else codecSearch rest code
    else none

/-- `packet_rtp_standard_codec` (packet_rtp.c lines 93-103). -/
def packet_rtp_standard_codec (code : Nat) : Option PacketRtpEncoding :=
  codecSearch encodings code

/-- Read octet `i` of a buffer.  The C buffer stores `guint8` values, so
the octet is the stored number reduced `% 256`; reads past the end (never
exercised by the guarded code paths) default to 0. -/
def byteAt (data : List Nat) (i : Nat) : Nat :=
  data.getD i 0 % 256

/-- Handled RTP versions: `RTP_VERSION_RFC1889` (line 47). -/
def RTP_VERSION_RFC1889 : Nat := 2

/-- Modelled from the spec: `sizeof(PacketRtpHdr)` for the fixed header
structure declared in the missing header `packet_rtp.h` — "minimum fixed
RTP header size" of 12 bytes (2 octets of bit fields, 16-bit sequence
number, 32-bit timestamp, 32-bit synchronization source id). -/
def rtpHdrSize : Nat := 12

/-- Decoded view of a `PacketRtpHdr` overlaid on a buffer. -/
structure PacketRtpHdr where
  version : Nat
  pt : Nat
  seq : Nat
  ts : Nat
  ssrc : Nat
deriving DecidableEq

/-- Modelled from the spec: the field layout of `PacketRtpHdr` from the
missing header `packet_rtp.h`, whose bit fields and network-order reads
(`RTP_VERSION(octet) = octet >> 6`, `RTP_PAYLOAD_TYPE(octet) =
octet & 0x7F`, `g_ntohs`/`g_ntohl` on the 16/32-bit fields) yield:
version = first octet's top 2 bits, payload type = second octet's low
7 bits, sequence number = bytes 2-3, timestamp = bytes 4-7,
synchronization source = bytes 8-11, all big-endian. -/
def rtpHdrOf (data : List Nat) : PacketRtpHdr :=
  { version := byteAt data 0 / 64
  , pt := byteAt data 1 % 128
  , seq := byteAt data 2 * 256 + byteAt data 3
  , ts := ((byteAt data 4 * 256 + byteAt data 5) * 256 + byteAt data 6) * 256
      + byteAt data 7
  , ssrc := ((byteAt data 8 * 256 + byteAt data 9) * 256 + byteAt data 10) * 256
      + byteAt data 11 }

/-- `PacketRtpData` (attached RTP protocol data).  `encodingDynamic` is a
ghost field recording pointer provenance: `true` exactly when `encoding`
was heap-allocated by the dissector (the `g_malloc0` branch, lines
125-128) rather than pointing into the static `encodings[]` table. -/
structure PacketRtpData where
  encoding : PacketRtpEncoding
  encodingDynamic : Bool
  seq : Nat
  ts : Nat
  ssrc : Nat
  payload : List Nat
deriving DecidableEq

/-- The Packet Record, restricted to the slot this dissector touches:
`g_ptr_array_index(packet->proto, PACKET_RTP)`, a nullable pointer to the
attached RTP protocol data. -/
structure Packet where
  proto_rtp : Option PacketRtpData
deriving DecidableEq

/-- `packet_add_type(packet, PACKET_RTP, rtp)`: store the RTP protocol
data in the packet's proto slot. -/
def packet_add_type (packet : Packet) (rtp : PacketRtpData) : Packet :=
  { proto_rtp := some rtp }

/-- `packet_rtp_data` (packet_rtp.c lines 81-91).  Both
`g_return_val_if_fail` guards (NULL packet, NULL slot entry) return NULL,
modelled as `none`. -/
def packet_rtp_data : Option Packet → Option PacketRtpData
  | none => none
  | some packet =>
    match packet.proto_rtp with
    | none => none
    | some rtp => some rtp

/-- Result of one `packet_rtp_parse` call: the returned buffer, the
possibly-mutated packet, and how many times `storage_add_packet` was
invoked during the call. -/
structure ParseResult where
  data : List Nat
  packet : Packet
  storageCalls : Nat
deriving DecidableEq

/-- `packet_rtp_parse` (packet_rtp.c lines 105-148).  The three guards
return the buffer unchanged; otherwise the codec is resolved (static
table hit, or a zero-initialised dynamic descriptor holding only the
code), the header fields are stored in host byte order, the 12 header
bytes are removed from the buffer, the shrunk buffer is attached as
payload, the RTP data is attached to the packet, and the packet is
delivered to storage exactly once. -/
def packet_rtp_parse (packet : Packet) (data : List Nat) : ParseResult :=
  if data.length < rtpHdrSize then
    ⟨data, packet, 0⟩
  else
    let hdr := rtpHdrOf data
    if hdr.version ≠ RTP_VERSION_RFC1889 then
      ⟨data, packet, 0⟩
    else if ¬(hdr.pt ≤ 64 ∨ 96 ≤ hdr.pt) then
      ⟨data, packet, 0⟩
    else
      let found := packet_rtp_standard_codec hdr.pt
      let encoding :=
        match found with
        | some e => e
        | none => ⟨hdr.pt, none, none, 0⟩
      let rtp : PacketRtpData :=
        { encoding := encoding
        , encodingDynamic := found.isNone
        , seq := hdr.seq
        , ts := hdr.ts
        , ssrc := hdr.ssrc
        , payload := data.drop rtpHdrSize }
      ⟨data.drop rtpHdrSize, packet_add_type packet rtp, 1⟩

/-- Outcome of one `packet_rtp_free` call.  `fatalAbort` is the
abort/panic-equivalent outcome the spec's error taxonomy prescribes for a
missing-data release; the code's `g_return_if_fail` guards instead log a
critical warning and return normally (`earlyReturnNullPacket`,
`earlyReturnNoData`).  `freed b` records a completed release whose
registry re-lookup decided to free the encoding descriptor iff `b`. -/
inductive FreeResult where
  | fatalAbort
  | earlyReturnNullPacket
  | earlyReturnNoData
  | freed (freedEncoding : Bool)
deriving DecidableEq

/-- `packet_rtp_free` (packet_rtp.c lines 150-163).  After the two
`g_return_if_fail` guards, the encoding descriptor is freed exactly when
re-running `packet_rtp_standard_codec` on the stored code finds no
match (lines 157-159); the payload reference and the data structure are
then released unconditionally. -/
def packet_rtp_free : Option Packet → FreeResult
  | none => .earlyReturnNullPacket
  | some packet =>
    match packet.proto_rtp with
    | none => .earlyReturnNoData
    | some rtp_data =>
      .freed (packet_rtp_standard_codec rtp_data.encoding.id).isNone

/-! ## Helper lemmas about the table search and the parse paths -/

theorem codecSearch_some_spec :
    ∀ (l : List PacketRtpEncoding) (code : Nat) (e : PacketRtpEncoding),
      codecSearch l code = some e → e.id = code ∧ e ∈ l
  | [], _, _, h => by simp [codecSearch] at h
  | a :: rest, code, e, h => by
    rw [codecSearch] at h
    by_cases hf : a.format.isSome
    · rw [if_pos hf] at h
      by_cases hid : a.id = code
      · rw [if_pos hid] at h
        have he := Option.some.inj h
        subst he
        exact ⟨hid, List.mem_cons_self a rest⟩
      · rw [if_neg hid] at h
        have hrec := codecSearch_some_spec rest code e h
        exact ⟨hrec.1, List.mem_cons_of_mem a hrec.2⟩
    · rw [if_neg hf] at h
      cases h

theorem parse_decline_short (packet : Packet) (data : List Nat)
    (h1 : data.length < rtpHdrSize) :
    packet_rtp_parse packet data = ⟨data, packet, 0⟩ := by
  simp only [packet_rtp_parse]
  rw [if_pos h1]

theorem parse_decline_version (packet : Packet) (data : List Nat)
    (h1 : ¬ data.length < rtpHdrSize)
    (h2 : (rtpHdrOf data).version ≠ RTP_VERSION_RFC1889) :
    packet_rtp_parse packet data = ⟨data, packet, 0⟩ := by
  simp only [packet_rtp_parse]
  rw [if_neg h1, if_pos h2]

theorem parse_decline_pt (packet : Packet) (data : List Nat)
    (h1 : ¬ data.length < rtpHdrSize)
    (h2 : (rtpHdrOf data).version = RTP_VERSION_RFC1889)
    (h3 : ¬((rtpHdrOf data).pt ≤ 64 ∨ 96 ≤ (rtpHdrOf data).pt)) :
    packet_rtp_parse packet data = ⟨data, packet, 0⟩ := by
  simp only [packet_rtp_parse]
  rw [if_neg h1, if_neg (not_not_intro h2), if_pos h3]

theorem parse_accept (packet : Packet) (data : List Nat)
    (h1 : ¬ data.length < rtpHdrSize)
    (h2 : (rtpHdrOf data).version = RTP_VERSION_RFC1889)
    (h3 : (rtpHdrOf data).pt ≤ 64 ∨ 96 ≤ (rtpHdrOf data).pt) :
    packet_rtp_parse packet data =
      ⟨data.drop rtpHdrSize,
       packet_add_type packet
         { encoding :=
             match packet_rtp_standard_codec (rtpHdrOf data).pt with
             | some e => e
             | none => ⟨(rtpHdrOf data).pt, none, none, 0⟩
         , encodingDynamic := (packet_rtp_standard_codec (rtpHdrOf data).pt).isNone
         , seq := (rtpHdrOf data).seq
         , ts := (rtpHdrOf data).ts
         , ssrc := (rtpHdrOf data).ssrc
         , payload := data.drop rtpHdrSize },
       1⟩ := by
  simp only [packet_rtp_parse]
  rw [if_neg h1, if_neg (not_not_intro h2), if_neg (not_not_intro h3)]

/-! ## Concrete inputs used by the witnesses -/

/-- A packet with nothing attached in the RTP slot. -/
def p0 : Packet := ⟨none⟩

/-- A minimal well-formed RTP buffer: version 2, payload type 0 (PCMU),
seq/ts/ssrc all 0, empty payload. -/
def data1 : List Nat := [128, 0, 0, 0, 0, 0, 0, 0, 0, 0, 0, 0]

/-- A 12-byte buffer whose first octet has version bits 0. -/
def data0 : List Nat := List.replicate 12 0

/-- A version-2 buffer with payload-type code 70 (inside the excluded
band 65-95). -/
def data3 : List Nat := [128, 70, 0, 0, 0, 0, 0, 0, 0, 0, 0, 0]

/-- A version-2 buffer with payload-type code 100 (dynamic range). -/
def data4 : List Nat := [128, 100, 0, 0, 0, 0, 0, 0, 0, 0, 0, 0]

/-! ## Claim theorems -/

/-- C1: for every buffer beginning with a well-formed 12-byte RTP header
with version 2 and payload type 0 (PCMU), dissection attaches RTP data
whose encoding descriptor is the static registry entry
{0, "PCMU/8000", "g711u", 8000} (not a fresh dynamic allocation, and a
member of the static table), and the returned buffer is the input minus
its first 12 bytes. -/
theorem rtp_parse_pcmu_static_encoding (packet : Packet) (data : List Nat)
    (hlen : rtpHdrSize ≤ data.length)
    (hv : (rtpHdrOf data).version = RTP_VERSION_RFC1889)
    (hpt : (rtpHdrOf data).pt = 0) :
    ∃ rtp : PacketRtpData,
      (packet_rtp_parse packet data).packet.proto_rtp = some rtp
      ∧ rtp.encoding = ⟨RTP_PT_PCMU, some "PCMU/8000", some "g711u", 8000⟩
      ∧ rtp.encodingDynamic = false
      ∧ rtp.encoding ∈ encodings
      ∧ (packet_rtp_parse packet data).data = data.drop rtpHdrSize := by
  have h1 : ¬ data.length < rtpHdrSize := Nat.not_lt.mpr hlen
  have h3 : (rtpHdrOf data).pt ≤ 64 ∨ 96 ≤ (rtpHdrOf data).pt :=
    Or.inl (by omega)
  have hc : packet_rtp_standard_codec (rtpHdrOf data).pt
      = some ⟨RTP_PT_PCMU, some "PCMU/8000", some "g711u", 8000⟩ := by
    rw [hpt]; decide
  rw [parse_accept packet data h1 hv h3]
  exact ⟨_, rfl, by simp [hc], by simp [hc], by simp [hc]; decide, rfl⟩

/-- C1 witness: instantiation at a concrete PCMU buffer. -/
theorem rtp_parse_pcmu_static_encoding_witness :
    rtpHdrSize ≤ data1.length
    ∧ (rtpHdrOf data1).version = RTP_VERSION_RFC1889
    ∧ (rtpHdrOf data1).pt = 0
    ∧ ∃ rtp : PacketRtpData,
        (packet_rtp_parse p0 data1).packet.proto_rtp = some rtp
        ∧ rtp.encoding = ⟨RTP_PT_PCMU, some "PCMU/8000", some "g711u", 8000⟩
        ∧ rtp.encodingDynamic = false
        ∧ rtp.encoding ∈ encodings
        ∧ (packet_rtp_parse p0 data1).data = data1.drop rtpHdrSize :=
  ⟨by decide, by decide, by decide,
   rtp_parse_pcmu_static_encoding p0 data1 (by decide) (by decide) (by decide)⟩

/-- C2: every buffer shorter than 12 bytes is returned unchanged, with no
RTP data attached and no storage delivery (silent decline). -/
theorem rtp_parse_short_buffer_declines (packet : Packet) (data : List Nat)
    (h : data.length < rtpHdrSize) :
    packet_rtp_parse packet data = ⟨data, packet, 0⟩ :=
  parse_decline_short packet data h

/-- C2 witness: a 1-byte buffer is declined unchanged. -/
theorem rtp_parse_short_buffer_declines_witness :
    ([0] : List Nat).length < rtpHdrSize
    ∧ packet_rtp_parse p0 [0] = ⟨[0], p0, 0⟩ :=
  ⟨by decide, rtp_parse_short_buffer_declines p0 [0] (by decide)⟩

/-- C3: every buffer of at least 12 bytes whose first octet's top 2 bits
differ from 2 is returned unchanged, with no RTP data attached. -/
theorem rtp_parse_version_mismatch_declines (packet : Packet) (data : List Nat)
    (hlen : rtpHdrSize ≤ data.length)
    (hv : (rtpHdrOf data).version ≠ RTP_VERSION_RFC1889) :
    packet_rtp_parse packet data = ⟨data, packet, 0⟩ :=
  parse_decline_version packet data (Nat.not_lt.mpr hlen) hv

/-- C3 witness: a 12-byte all-zero buffer (version bits 0) is declined. -/
theorem rtp_parse_version_mismatch_declines_witness :
    rtpHdrSize ≤ data0.length
    ∧ (rtpHdrOf data0).version ≠ RTP_VERSION_RFC1889
    ∧ packet_rtp_parse p0 data0 = ⟨data0, p0, 0⟩ :=
  ⟨by decide, by decide,
   rtp_parse_version_mismatch_declines p0 data0 (by decide) (by decide)⟩

/-- C4: with sufficient length and version 2, dissection proceeds (attaches
RTP data) iff the payload-type code satisfies code ≤ 64 or code ≥ 96, and
for every code in [65, 95] the buffer is returned unchanged with no
attachment. -/
theorem rtp_parse_payload_band_policy (packet : Packet) (data : List Nat)
    (hp : packet.proto_rtp = none)
    (hlen : rtpHdrSize ≤ data.length)
    (hv : (rtpHdrOf data).version = RTP_VERSION_RFC1889) :
    (((packet_rtp_parse packet data).packet.proto_rtp).isSome
        ↔ ((rtpHdrOf data).pt ≤ 64 ∨ 96 ≤ (rtpHdrOf data).pt))
    ∧ (65 ≤ (rtpHdrOf data).pt → (rtpHdrOf data).pt ≤ 95 →
        packet_rtp_parse packet data = ⟨data, packet, 0⟩) := by
  have h1 : ¬ data.length < rtpHdrSize := Nat.not_lt.mpr hlen
  by_cases h3 : (rtpHdrOf data).pt ≤ 64 ∨ 96 ≤ (rtpHdrOf data).pt
  · rw [parse_accept packet data h1 hv h3]
    refine ⟨by simp [packet_add_type, h3], ?_⟩
    intro ha hb
    exact absurd h3 (by omega)
  · rw [parse_decline_pt packet data h1 hv h3]
    exact ⟨by simp [hp, h3], fun _ _ => rfl⟩

/-- C4 witness: payload-type 70 (in the excluded band) at version 2. -/
theorem rtp_parse_payload_band_policy_witness :
    p0.proto_rtp = none
    ∧ rtpHdrSize ≤ data3.length
    ∧ (rtpHdrOf data3).version = RTP_VERSION_RFC1889
    ∧ ((((packet_rtp_parse p0 data3).packet.proto_rtp).isSome
          ↔ ((rtpHdrOf data3).pt ≤ 64 ∨ 96 ≤ (rtpHdrOf data3).pt))
       ∧ (65 ≤ (rtpHdrOf data3).pt → (rtpHdrOf data3).pt ≤ 95 →
          packet_rtp_parse p0 data3 = ⟨data3, p0, 0⟩)) :=
  ⟨rfl, by decide, by decide,
   rtp_parse_payload_band_policy p0 data3 rfl (by decide) (by decide)⟩

/-- C5: the registry lookup finds nothing for any code in 96-127, and for
every accepted code absent from the registry the dissector attaches a
freshly allocated dynamic descriptor carrying only that code, with
name/tag/clock fields zeroed. -/
theorem rtp_parse_dynamic_encoding :
    (∀ code : Nat, code < 128 → 96 ≤ code →
        packet_rtp_standard_codec code = none)
    ∧ ∀ (packet : Packet) (data : List Nat),
        rtpHdrSize ≤ data.length →
        (rtpHdrOf data).version = RTP_VERSION_RFC1889 →
        ((rtpHdrOf data).pt ≤ 64 ∨ 96 ≤ (rtpHdrOf data).pt) →
        packet_rtp_standard_codec (rtpHdrOf data).pt = none →
        ∃ rtp : PacketRtpData,
          (packet_rtp_parse packet data).packet.proto_rtp = some rtp
          ∧ rtp.encodingDynamic = true
          ∧ rtp.encoding = ⟨(rtpHdrOf data).pt, none, none, 0⟩ := by
  constructor
  · decide
  · intro packet data hlen hv h3 hc
    rw [parse_accept packet data (Nat.not_lt.mpr hlen) hv h3]
    exact ⟨_, rfl, by simp [hc], by simp [hc]⟩

/-- C5 witness: payload-type 100 yields a zeroed dynamic descriptor with
id 100, and the registry lookup at 100 finds nothing. -/
theorem rtp_parse_dynamic_encoding_witness :
    (100 < 128 ∧ 96 ≤ 100 ∧ packet_rtp_standard_codec 100 = none)
    ∧ (rtpHdrSize ≤ data4.length
       ∧ (rtpHdrOf data4).version = RTP_VERSION_RFC1889
       ∧ ((rtpHdrOf data4).pt ≤ 64 ∨ 96 ≤ (rtpHdrOf data4).pt)
       ∧ packet_rtp_standard_codec (rtpHdrOf data4).pt = none
       ∧ ∃ rtp : PacketRtpData,
           (packet_rtp_parse p0 data4).packet.proto_rtp = some rtp
           ∧ rtp.encodingDynamic = true
           ∧ rtp.encoding = ⟨(rtpHdrOf data4).pt, none, none, 0⟩) :=
  ⟨⟨by decide, by decide,
    rtp_parse_dynamic_encoding.1 100 (by decide) (by decide)⟩,
   ⟨by decide, by decide, by decide, by decide,
    rtp_parse_dynamic_encoding.2 p0 data4 (by decide) (by decide) (by decide)
      (by decide)⟩⟩

/-- C6: on a buffer starting with bytes
[0x80, 0x00, 0x00, 0x01, 0x00, 0x00, 0x00, 0x02, 0x00, 0x00, 0x00, 0x03],
the header decodes as version 2 and payload type 0, and the attached RTP
data carries seq = 1, ts = 2, ssrc = 3 (big-endian reads of bytes 2-3,
4-7 and 8-11). -/
theorem rtp_parse_field_extraction (packet : Packet) (payload data : List Nat)
    (hd : data
        = 128 :: 0 :: 0 :: 1 :: 0 :: 0 :: 0 :: 2 :: 0 :: 0 :: 0 :: 3 :: payload) :
    (rtpHdrOf data).version = 2
    ∧ (rtpHdrOf data).pt = 0
    ∧ ∃ rtp : PacketRtpData,
        (packet_rtp_parse packet data).packet.proto_rtp = some rtp
        ∧ rtp.seq = 1 ∧ rtp.ts = 2 ∧ rtp.ssrc = 3 := by
  subst hd
  have hhdr : rtpHdrOf
      (128 :: 0 :: 0 :: 1 :: 0 :: 0 :: 0 :: 2 :: 0 :: 0 :: 0 :: 3 :: payload)
      = ⟨2, 0, 1, 2, 3⟩ := by
    simp [rtpHdrOf, byteAt]
  have h1 : ¬ (128 :: 0 :: 0 :: 1 :: 0 :: 0 :: 0 :: 2 :: 0 :: 0 :: 0 :: 3
      :: payload).length < rtpHdrSize := by
    simp [rtpHdrSize]
  refine ⟨by rw [hhdr], by rw [hhdr], ?_⟩
  rw [parse_accept _ _ h1 (by rw [hhdr]; decide) (by rw [hhdr]; decide)]
  refine ⟨_, rfl, ?_, ?_, ?_⟩ <;> simp [hhdr]

/-- C6 witness: the 12-byte instance with empty payload. -/
theorem rtp_parse_field_extraction_witness :
    ([128, 0, 0, 1, 0, 0, 0, 2, 0, 0, 0, 3] : List Nat)
        = 128 :: 0 :: 0 :: 1 :: 0 :: 0 :: 0 :: 2 :: 0 :: 0 :: 0 :: 3 :: []
    ∧ ((rtpHdrOf [128, 0, 0, 1, 0, 0, 0, 2, 0, 0, 0, 3]).version = 2
       ∧ (rtpHdrOf [128, 0, 0, 1, 0, 0, 0, 2, 0, 0, 0, 3]).pt = 0
       ∧ ∃ rtp : PacketRtpData,
           (packet_rtp_parse p0
             [128, 0, 0, 1, 0, 0, 0, 2, 0, 0, 0, 3]).packet.proto_rtp = some rtp
           ∧ rtp.seq = 1 ∧ rtp.ts = 2 ∧ rtp.ssrc = 3) :=
  ⟨rfl, rtp_parse_field_extraction p0 []
    [128, 0, 0, 1, 0, 0, 0, 2, 0, 0, 0, 3] rfl⟩

/-- A concrete RTP data value: the one attached by dissecting `data1`. -/
def rtp1 : PacketRtpData :=
  ⟨⟨RTP_PT_PCMU, some "PCMU/8000", some "g711u", 8000⟩, false, 0, 0, 0, []⟩

/-- C7: for every packet produced by a successful dissect, the release
operation's re-lookup of the stored code frees the encoding descriptor
exactly when dissection had allocated it dynamically (the creation-time
provenance tag), and a non-dynamic descriptor is a static registry entry,
never freed.  The registry itself is an immutable constant, so this
equivalence holds across arbitrarily many dissect/release cycles. -/
theorem rtp_free_relookup_matches_provenance (packet : Packet)
    (data : List Nat) (rtp : PacketRtpData)
    (hp : packet.proto_rtp = none)
    (h : (packet_rtp_parse packet data).packet.proto_rtp = some rtp) :
    packet_rtp_free (some (packet_rtp_parse packet data).packet)
      = FreeResult.freed rtp.encodingDynamic
    ∧ (rtp.encodingDynamic = false → rtp.encoding ∈ encodings) := by
  by_cases h1 : data.length < rtpHdrSize
  · rw [parse_decline_short packet data h1] at h
    rw [hp] at h
    cases h
  · by_cases h2 : (rtpHdrOf data).version = RTP_VERSION_RFC1889
    · by_cases h3 : (rtpHdrOf data).pt ≤ 64 ∨ 96 ≤ (rtpHdrOf data).pt
      · rw [parse_accept packet data h1 h2 h3] at h ⊢
        simp only [packet_add_type, Option.some.injEq] at h
        subst h
        cases hc : packet_rtp_standard_codec (rtpHdrOf data).pt with
        | none =>
          refine ⟨by simp [packet_rtp_free, packet_add_type, hc], ?_⟩
          intro hfalse
          simp [hc] at hfalse
        | some e =>
          have hspec := codecSearch_some_spec encodings (rtpHdrOf data).pt e hc
          refine ⟨?_, fun _ => by simpa [hc] using hspec.2⟩
          simp [packet_rtp_free, packet_add_type, hc, hspec.1]
      · rw [parse_decline_pt packet data h1 h2 h3] at h
        rw [hp] at h
        cases h
    · rw [parse_decline_version packet data h1 h2] at h
      rw [hp] at h
      cases h

/-- C7 witness: dissecting the concrete PCMU buffer and releasing the
result does not free the static descriptor. -/
theorem rtp_free_relookup_matches_provenance_witness :
    p0.proto_rtp = none
    ∧ (packet_rtp_parse p0 data1).packet.proto_rtp = some rtp1
    ∧ (packet_rtp_free (some (packet_rtp_parse p0 data1).packet)
          = FreeResult.freed rtp1.encodingDynamic
       ∧ (rtp1.encodingDynamic = false → rtp1.encoding ∈ encodings)) :=
  ⟨rfl, by decide,
   rtp_free_relookup_matches_provenance p0 data1 rtp1 rfl (by decide)⟩

/-- C8: dissection delivers the packet to storage exactly once per
successful dissect (iff RTP data was attached), at most once overall, and
never on any decline path (where buffer and packet are returned
untouched). -/
theorem rtp_parse_storage_delivery (packet : Packet) (data : List Nat)
    (hp : packet.proto_rtp = none) :
    ((packet_rtp_parse packet data).storageCalls = 1
        ↔ ((packet_rtp_parse packet data).packet.proto_rtp).isSome)
    ∧ ((packet_rtp_parse packet data).storageCalls = 0
        ∨ (packet_rtp_parse packet data).storageCalls = 1)
    ∧ ((packet_rtp_parse packet data).storageCalls = 0 →
        packet_rtp_parse packet data = ⟨data, packet, 0⟩) := by
  by_cases h1 : data.length < rtpHdrSize
  · rw [parse_decline_short packet data h1]
    simp [hp]
  · by_cases h2 : (rtpHdrOf data).version = RTP_VERSION_RFC1889
    · by_cases h3 : (rtpHdrOf data).pt ≤ 64 ∨ 96 ≤ (rtpHdrOf data).pt
      · rw [parse_accept packet data h1 h2 h3]
        simp [packet_add_type]
      · rw [parse_decline_pt packet data h1 h2 h3]
        simp [hp]
    · rw [parse_decline_version packet data h1 h2]
      simp [hp]

/-- C8 witness: the PCMU buffer is delivered exactly once. -/
theorem rtp_parse_storage_delivery_witness :
    p0.proto_rtp = none
    ∧ (((packet_rtp_parse p0 data1).storageCalls = 1
          ↔ ((packet_rtp_parse p0 data1).packet.proto_rtp).isSome)
       ∧ ((packet_rtp_parse p0 data1).storageCalls = 0
          ∨ (packet_rtp_parse p0 data1).storageCalls = 1)
       ∧ ((packet_rtp_parse p0 data1).storageCalls = 0 →
          packet_rtp_parse p0 data1 = ⟨data1, p0, 0⟩)) :=
  ⟨rfl, rtp_parse_storage_delivery p0 data1 rfl⟩

/-- C9 counterexample: releasing a packet with no attached RTP data takes
the guarded early-return path (a recoverable non-action), which is not the
abort/panic-equivalent outcome the claim asserts. -/
theorem rtp_free_missing_data_not_fatal :
    packet_rtp_free (some p0) = FreeResult.earlyReturnNoData
    ∧ FreeResult.earlyReturnNoData ≠ FreeResult.fatalAbort := by
  decide

/-- C9 amended: invoking release on a packet with no attached RTP data is
a guarded precondition failure — `g_return_if_fail` logs a critical
warning and returns without freeing anything — i.e. a recoverable early
return, not an abort or panic-equivalent. -/
theorem rtp_free_missing_data_guarded (packet : Packet)
    (hp : packet.proto_rtp = none) :
    packet_rtp_free (some packet) = FreeResult.earlyReturnNoData
    ∧ packet_rtp_free (some packet) ≠ FreeResult.fatalAbort := by
  have hpk : packet = ⟨none⟩ := by
    cases packet
    simp_all
  rw [hpk]
  exact ⟨rfl, by decide⟩

/-- C9 amended witness: the empty packet. -/
theorem rtp_free_missing_data_guarded_witness :
    p0.proto_rtp = none
    ∧ (packet_rtp_free (some p0) = FreeResult.earlyReturnNoData
       ∧ packet_rtp_free (some p0) ≠ FreeResult.fatalAbort) :=
  ⟨rfl, rtp_free_missing_data_guarded p0 rfl⟩

/-- C10: the RTP protocol-data accessor returns an absent result (NULL)
for a NULL packet and for a packet whose record has no RTP entry, and
returns the attached data exactly when RTP data was attached — it never
aborts. -/
theorem rtp_data_nullable_accessor :
    packet_rtp_data none = none
    ∧ (∀ packet : Packet, packet.proto_rtp = none →
        packet_rtp_data (some packet) = none)
    ∧ (∀ (packet : Packet) (rtp : PacketRtpData),
        packet.proto_rtp = some rtp →
        packet_rtp_data (some packet) = some rtp) := by
  refine ⟨rfl, ?_, ?_⟩
  · intro packet hp
    simp [packet_rtp_data, hp]
  · intro packet rtp hp
    simp [packet_rtp_data, hp]

/-- C10 witness: the accessor on the empty packet and on a packet holding
`rtp1`. -/
theorem rtp_data_nullable_accessor_witness :
    packet_rtp_data none = none
    ∧ packet_rtp_data (some p0) = none
    ∧ packet_rtp_data (some ⟨some rtp1⟩) = some rtp1 :=
  ⟨rtp_data_nullable_accessor.1,
   rtp_data_nullable_accessor.2.1 p0 rfl,
   rtp_data_nullable_accessor.2.2 ⟨some rtp1⟩ rtp1 rfl⟩
